import Mathlib

/-!
Verification development for the howe-lab-to-nwb repository (vu2024 conversion
pipeline).  The Python source is shallowly embedded: the NWB document is an
explicit state record, fallible code returns `Except PyError`, numpy float
arrays become `List ℚ`, and in-place mutation becomes state passing.  Each
embedded definition keeps the name and the statement order of its source
function in `src/howe_lab_to_nwb/vu2024/`.
-/

namespace HoweLab

/-- Python exception classes that the embedded code can raise. -/
inductive PyError
  | valueError (msg : String)
  | typeError
  | indexError
  | attributeError
  | assertionError
  | keyError
  deriving DecidableEq, Repr

/-- Sequential effectful map over a list, stopping at the first error.
This is the embedding of a Python `for` loop (or numpy fancy indexing)
that can raise. -/
def exceptMap {α β : Type} (f : α → Except PyError β) : List α → Except PyError (List β)
  | [] => Except.ok []
  | a :: rest => do
    let b ← f a
    let bs ← exceptMap f rest
    Except.ok (b :: bs)

/-- numpy fancy indexing `xs[idxs]`: raises IndexError on an out-of-range index. -/
def fancyIndex {α : Type} (xs : List α) (idxs : List Nat) : Except PyError (List α) :=
  exceptMap (fun i =>
    match xs.get? i with
    | some x => Except.ok x
    | none => Except.error PyError.indexError) idxs





/-! ## Device registry (`utils/add_fiber_photometry.py`, `add_photometry_device`) -/

/-- The closed set of photometry device kinds dispatched by `add_photometry_device`. -/
inductive DeviceType
  | OpticalFiber
  | Indicator
  | ExcitationSource
  | Photodetector
  | DichroicMirror
  | BandOpticalFilter
  deriving DecidableEq, Repr

/-- A device metadata record: a name plus the remaining flat attributes,
kept opaque as key-value pairs (the embedded code only reads `name`). -/
structure DeviceMetadata where
  name : String
  attrs : List (String × String)
  deriving DecidableEq, Repr

/-- A typed device object constructed from a metadata record, as stored in
`nwbfile.devices`. -/
structure PhotometryDevice where
  deviceType : DeviceType
  metadata : DeviceMetadata
  deriving DecidableEq, Repr

/-- The timing descriptor of a response series: either `(rate, starting_time)`
or an explicit per-frame timestamp array. -/
inductive TimingKwargs
  | rateStart (rate : ℚ) (starting_time : ℚ)
  | explicit (timestamps : List ℚ)
  deriving DecidableEq, Repr

/-- A `DynamicTableRegion` over the fiber photometry table: the selected row
indices plus a description. -/
structure TableRegion where
  region : List Nat
  description : String
  deriving DecidableEq, Repr

/-- The fields of a `FiberPhotometryResponseSeries` that the embedded code
constructs (data is frames x fibers). -/
structure FiberPhotometryResponseSeries where
  name : String
  description : String
  data : List (List ℚ)
  fiber_photometry_table_region : TableRegion
  timing : TimingKwargs
  deriving DecidableEq, Repr

/-- One row of the fiber photometry table.  Device links are stored by name
(the source stores the `nwbfile.devices[name]` objects, whose identity is
their name). -/
structure FiberRow where
  included : Bool
  location : String
  coordinates : List ℚ
  allen_atlas_coordinates : List ℚ
  indicator : String
  optical_fiber : String
  excitation_source : String
  photodetector : String
  dichroic_mirror : String
  excitation_filter : String
  emission_filter : String
  deriving DecidableEq, Repr

/-- The slice of NWBFile state that the embedded functions read and write:
the device namespace, the fiber photometry table (behind the
`FiberPhotometry` lab meta data, `none` until created), the acquisition
container and the `processing/ophys` module. -/
structure NWBFileState where
  devices : List (String × PhotometryDevice)
  fiberPhotometryTable : Option (List FiberRow)
  acquisition : List (String × FiberPhotometryResponseSeries)
  ophys : List (String × FiberPhotometryResponseSeries)
  deriving DecidableEq, Repr

/-- Pure core of `add_photometry_device` once the metadata record is known:
if a device of that name already exists, return the file unchanged,
otherwise construct the typed device and insert it. -/
def registerDevice (nwbfile : NWBFileState) (md : DeviceMetadata) (dt : DeviceType) :
    NWBFileState :=
  if nwbfile.devices.any (fun d => d.1 == md.name) then nwbfile
  else { nwbfile with devices := nwbfile.devices ++ [(md.name, ⟨dt, md⟩)] }

/-- `add_photometry_device(nwbfile, device_metadata, device_type)`.
The caller may pass `None` for the metadata (the source does so for an
unresolved optical fiber), in which case `device_metadata["name"]` raises
TypeError before anything else happens. -/
def add_photometry_device (nwbfile : NWBFileState) (device_metadata : Option DeviceMetadata)
    (device_type : DeviceType) : Except PyError NWBFileState :=
  match device_metadata with
  | none => Except.error PyError.typeError
  | some md => Except.ok (registerDevice nwbfile md device_type)



/-! ## Fiber photometry table and series assembler
(`utils/add_fiber_photometry.py`) -/

/-- The per-series trace metadata entry from
`metadata["Ophys"]["FiberPhotometry"]["FiberPhotometryResponseSeries"]`. -/
structure TraceMetadata where
  name : String
  description : String
  optical_fiber : String
  indicator : String
  excitation_source : String
  photodetector : String
  dichroic_mirror : String
  excitation_filter : String
  emission_filter : String
  deriving DecidableEq, Repr

/-- The metadata tables under `metadata["Ophys"]["FiberPhotometry"]` that
`add_fiber_photometry_series` resolves device names against. -/
structure FiberPhotometryMetadata where
  fiberPhotometryResponseSeries : List TraceMetadata
  opticalFibers : List DeviceMetadata
  indicator : List DeviceMetadata
  excitationSources : List DeviceMetadata
  photodetectors : List DeviceMetadata
  dichroicMirrors : List DeviceMetadata
  bandOpticalFilters : List DeviceMetadata
  edgeOpticalFilters : List DeviceMetadata
  deriving DecidableEq, Repr

/-- One entry of the `fiber_locations_metadata` list built by
`get_fiber_locations`. -/
structure FiberLocationMetadata where
  coordinates : List ℚ
  allen_atlas_coordinates : List ℚ
  location : String
  included : Bool
  deriving DecidableEq, Repr

/-- The generator-with-default idiom
`next((r for r in records if r["name"] == n), None)`. -/
def findDevice (records : List DeviceMetadata) (n : String) : Option DeviceMetadata :=
  records.find? (fun r => r.name == n)

/-- The emission filter lookup: first in `BandOpticalFilters`, then as a
fallback in `EdgeOpticalFilters` (lines 155-172). -/
def resolveEmissionFilter (metadata : FiberPhotometryMetadata) (n : String) :
    Option DeviceMetadata :=
  match findDevice metadata.bandOpticalFilters n with
  | some m => some m
  | none => findDevice metadata.edgeOpticalFilters n

/-- `add_fiber_photometry_table(nwbfile, metadata)`: a no-op when the
`FiberPhotometry` lab meta data already exists, otherwise creates the empty
fiber photometry table. -/
def add_fiber_photometry_table (nwbfile : NWBFileState) : NWBFileState :=
  if nwbfile.fiberPhotometryTable.isSome then nwbfile
  else { nwbfile with fiberPhotometryTable := some [] }



/-- Modelled from neuroconv (external dependency used at line 205):
`calculate_regular_series_rate` returns the reciprocal of the common
timestamp difference when all consecutive differences agree (regular
spacing within floating-point tolerance; exact equality over ℚ here),
and `None` otherwise. -/
def calculate_regular_series_rate (series : List ℚ) : Option ℚ :=
  match (series.zip series.tail).map (fun p => p.2 - p.1) with
  | [] => none
  | d :: rest => if rest.all (fun x => x == d) then some (1 / d) else none

/-- Lines 204-209: the timing kwargs for a first series, collapsing to
`(rate, starting_time = timestamps[0])` when the rate detector fires and
keeping the explicit array otherwise. -/
def computeTiming (timestamps : List ℚ) : Except PyError TimingKwargs :=
  match calculate_regular_series_rate timestamps with
  | some rate =>
    match timestamps.head? with
    | some t0 => Except.ok (TimingKwargs.rateStart rate t0)
    | none => Except.error PyError.indexError
  | none => Except.ok (TimingKwargs.explicit timestamps)

/-- Lines 181-196: the row appended for fiber index `fiber_ind`, combining
the fiber location record with the resolved device links of the trace. -/
def mkFiberRow (loc : FiberLocationMetadata) (tm : TraceMetadata) : FiberRow where
  included := loc.included
  location := loc.location
  coordinates := loc.coordinates
  allen_atlas_coordinates := loc.allen_atlas_coordinates
  indicator := tm.indicator
  optical_fiber := tm.optical_fiber
  excitation_source := tm.excitation_source
  photodetector := tm.photodetector
  dichroic_mirror := tm.dichroic_mirror
  excitation_filter := tm.excitation_filter
  emission_filter := tm.emission_filter

/-- The `for fiber_ind in range(num_fibers)` loop body of lines 181-196:
`fiber_locations_metadata[fiber_ind]` raises IndexError past the end. -/
def buildRows (num_fibers : Nat) (fiber_locations_metadata : List FiberLocationMetadata)
    (tm : TraceMetadata) : Except PyError (List FiberRow) :=
  exceptMap (fun i =>
    match fiber_locations_metadata.get? i with
    | some loc => Except.ok (mkFiberRow loc tm)
    | none => Except.error PyError.indexError) (List.range num_fibers)

/-- Lines 230-236: attach the finished series under the requested parent
container, rejecting anything other than `acquisition` and
`processing/ophys`. -/
def attachSeries (nwbfile : NWBFileState) (parent_container : String)
    (series : FiberPhotometryResponseSeries) : Except PyError NWBFileState :=
  if parent_container == "acquisition" then
    Except.ok { nwbfile with acquisition := nwbfile.acquisition ++ [(series.name, series)] }
  else if parent_container == "processing/ophys" then
    Except.ok { nwbfile with ophys := nwbfile.ophys ++ [(series.name, series)] }
  else Except.error (PyError.valueError "Invalid parent container")

/-- `add_fiber_photometry_series`, embedded statement by statement.  Note
that the optical fiber lookup (source lines 90-95) has no `None` check:
an unresolved fiber name flows into `add_photometry_device`, unlike the
six other device lookups which raise ValueError. -/
def add_fiber_photometry_series
    (nwbfile : NWBFileState)
    (metadata : FiberPhotometryMetadata)
    (data : List (List ℚ))
    (timestamps : List ℚ)
    (fiber_photometry_series_name : String)
    (fiber_locations_metadata : List FiberLocationMetadata)
    (table_region : Option (List Nat))
    (parent_container : String) :
    Except PyError NWBFileState := do
  let traces_metadata := metadata.fiberPhotometryResponseSeries
  let trace_metadata ← match traces_metadata.find?
      (fun t => t.name == fiber_photometry_series_name) with
    | some tm => Except.ok tm
    | none => Except.error (PyError.valueError "Trace metadata not found.")
  let nwbfile1 := add_fiber_photometry_table nwbfile
  let fiber_metadata := findDevice metadata.opticalFibers trace_metadata.optical_fiber
  let nwbfile2 ← add_photometry_device nwbfile1 fiber_metadata DeviceType.OpticalFiber
  let indicator_metadata ← match findDevice metadata.indicator trace_metadata.indicator with
    | some m => Except.ok m
    | none => Except.error (PyError.valueError "Indicator metadata not found.")
  let nwbfile3 ← add_photometry_device nwbfile2 (some indicator_metadata) DeviceType.Indicator
  let excitation_source_metadata ←
    match findDevice metadata.excitationSources trace_metadata.excitation_source with
    | some m => Except.ok m
    | none => Except.error (PyError.valueError "Excitation source metadata not found.")
  let nwbfile4 ← add_photometry_device nwbfile3 (some excitation_source_metadata)
    DeviceType.ExcitationSource
  let photodetector_metadata ←
    match findDevice metadata.photodetectors trace_metadata.photodetector with
    | some m => Except.ok m
    | none => Except.error (PyError.valueError "Photodetector metadata not found.")
  let nwbfile5 ← add_photometry_device nwbfile4 (some photodetector_metadata)
    DeviceType.Photodetector
  let dichroic_mirror_metadata ←
    match findDevice metadata.dichroicMirrors trace_metadata.dichroic_mirror with
    | some m => Except.ok m
    | none => Except.error (PyError.valueError "Dichroic mirror metadata not found.")
  let nwbfile6 ← add_photometry_device nwbfile5 (some dichroic_mirror_metadata)
    DeviceType.DichroicMirror
  let optical_filter_metadata ←
    match findDevice metadata.bandOpticalFilters trace_metadata.excitation_filter with
    | some m => Except.ok m
    | none => Except.error (PyError.valueError "Optical filter metadata not found.")
  let nwbfile7 ← add_photometry_device nwbfile6 (some optical_filter_metadata)
    DeviceType.BandOpticalFilter
  let emission_filter_metadata ←
    match resolveEmissionFilter metadata trace_metadata.emission_filter with
    | some m => Except.ok m
    | none => Except.error (PyError.valueError "Emission filter metadata not found.")
  let nwbfile8 ← add_photometry_device nwbfile7 (some emission_filter_metadata)
    DeviceType.BandOpticalFilter
  let num_fibers := (data.headD []).length
  let default_series_name := (traces_metadata.headD trace_metadata).name
  match nwbfile8.acquisition.find? (fun p => p.1 == default_series_name) with
  | none => do
    let rows ← buildRows num_fibers fiber_locations_metadata trace_metadata
    let nwbfile9 := { nwbfile8 with
      fiberPhotometryTable := some (nwbfile8.fiberPhotometryTable.getD [] ++ rows) }
    let region_list := table_region.getD (List.range num_fibers)
    let fiber_photometry_table_region : TableRegion := ⟨region_list, "source fibers"⟩
    let timing ← computeTiming timestamps
    attachSeries nwbfile9 parent_container
      ⟨trace_metadata.name, trace_metadata.description, data,
        fiber_photometry_table_region, timing⟩
  | some entry => do
    let raw_fiber_photometry_response_series := entry.2
    let fiber_photometry_table_region :=
      raw_fiber_photometry_response_series.fiber_photometry_table_region
    let timing := match raw_fiber_photometry_response_series.timing with
      | TimingKwargs.explicit ts => TimingKwargs.explicit ts
      | TimingKwargs.rateStart r t0 => TimingKwargs.rateStart r t0
    attachSeries nwbfile8 parent_container
      ⟨trace_metadata.name, trace_metadata.description, data,
        fiber_photometry_table_region, timing⟩

/-! ## Behavior event intervals
(`interfaces/vu2024_behaviorinterface.py`, `add_binary_signals`, lines 197-225) -/

/-- `np.diff` on an integer array. -/
def npDiff (xs : List Int) : List Int :=
  (xs.zip xs.tail).map (fun p => p.2 - p.1)

/-- `np.where(xs == v)[0]`: the indices at which the array equals `v`. -/
def whereIndices (xs : List Int) (v : Int) : List Nat :=
  (List.range xs.length).filter (fun i => xs.get? i == some v)

/-- The event-interval derivation for one binary event channel inside
`add_binary_signals`: locate 0 to 1 transitions (`stim_on`) and 1 to 0
transitions (`stim_off`) in the diffed trace, adjust for boundary
mismatches, and map both index lists through the timestamp array into
`(start_time, stop_time)` pairs. -/
def deriveEventIntervals (event_data : List Int) (timestamps : List ℚ) :
    Except PyError (List (ℚ × ℚ)) := do
  let d := npDiff event_data
  let stim_on := (whereIndices d 1).map (fun i => i + 1)
  if stim_on.length = 0 then Except.ok []
  else do
    let stim_off := (whereIndices d (-1)).map (fun i => i + 1)
    let off0 ← match stim_off.head? with
      | some x => Except.ok x
      | none => Except.error PyError.indexError
    let on0 ← match stim_on.head? with
      | some x => Except.ok x
      | none => Except.error PyError.indexError
    let stim_off1 := if off0 < on0 then stim_off.tail else stim_off
    let offLast ← match stim_off1.getLast? with
      | some x => Except.ok x
      | none => Except.error PyError.indexError
    let onLast ← match stim_on.getLast? with
      | some x => Except.ok x
      | none => Except.error PyError.indexError
    let stim_on1 := if offLast < onLast then stim_on.dropLast else stim_on
    let starts ← fancyIndex timestamps stim_on1
    let stops ← fancyIndex timestamps stim_off1
    if starts.length = stops.length then Except.ok (starts.zip stops)
    else Except.error (PyError.valueError "arrays must all be same length")

/-! ## Cross-interface temporal aligner
(`vu2024nwbconverter.py`, `Vu2024NWBConverter.temporally_align_data_interfaces`) -/

/-- Modelled from neuroconv (external dependency used at line 82):
`get_rising_frames_from_ttl` binarizes the trace against half its maximum
and returns the indices of 0-to-1 transitions (index 0 never qualifies). -/
def get_rising_frames_from_ttl (trace : List ℚ) : List Nat :=
  let mx := trace.foldr max 0
  let b := trace.map (fun x => decide (mx / 2 < x))
  (List.range b.length).filter (fun i => 0 < i && b.get? (i - 1) == some false && b.get? i == some true)

/-- Prefix test over character lists. -/
def charsPrefix (p s : List Char) : Bool :=
  match p, s with
  | [], _ => true
  | _ :: _, [] => false
  | a :: p2, b :: s2 => a == b && charsPrefix p2 s2

/-- Substring containment over character lists. -/
def charsContains (s p : List Char) : Bool :=
  match s with
  | [] => p.isEmpty
  | c :: rest => charsPrefix p (c :: rest) || charsContains rest p

/-- Python `any(part in video_file_path for part in parts)` over a closed
vocabulary of file-name fragments. -/
def containsAny (s : String) (parts : List String) : Bool :=
  parts.any (fun p => charsContains s.toList p.toList)

/-- The TTL `.mat` file contents the aligner reads: the two video TTL
channels and the shared timestamp array. -/
structure TTLData where
  ttlIn3 : List ℚ
  ttlIn4 : List ℚ
  timestamp : List ℚ
  deriving DecidableEq, Repr

/-- A video interface: its (first) source file path and its mutable aligned
timestamps. -/
structure VideoInterfaceState where
  file_path : String
  aligned_timestamps : Option (List ℚ)
  deriving DecidableEq, Repr

/-- The converter state over its data interfaces: the `aligned` flag, the
imaging timestamps, the fiber-photometry aligned-timestamp override, the
optional processed-imaging interface (outer `Option` = interface present,
inner = its aligned override), the optional behavior interface with its
current timestamps, the video interfaces, and the TTL file contents. -/
structure ConverterState where
  aligned : Bool
  imaging_timestamps : List ℚ
  fiber_photometry_timestamps : Option (List ℚ)
  processed_imaging : Option (Option (List ℚ))
  behavior_timestamps : Option (List ℚ)
  videos : List VideoInterfaceState
  ttl : TTLData
  deriving DecidableEq, Repr

/-- The per-video body of the alignment loop (lines 70-86): infer the TTL
stream from the file name, extract that channel's rising-edge timestamps,
truncate to the fiber-photometry frame count when longer, and assign them
as the video's aligned timestamps. -/
def alignVideo (ttl : TTLData) (aligned_timestamps : List ℚ)
    (video_interface : VideoInterfaceState) : Except PyError VideoInterfaceState := do
  let ttl_trace ←
    if containsAny video_interface.file_path ["body", "top", "video1"] then
      Except.ok ttl.ttlIn3
    else if containsAny video_interface.file_path ["lick", "face", "side", "video2"] then
      Except.ok ttl.ttlIn4
    else
      Except.error (PyError.valueError "Could not determine TTL stream for video file")
  let rising_frames := get_rising_frames_from_ttl ttl_trace
  let video_timestamps ← fancyIndex ttl.timestamp rising_frames
  let video_timestamps2 :=
    if aligned_timestamps.length < video_timestamps.length then
      video_timestamps.take aligned_timestamps.length
    else video_timestamps
  Except.ok { video_interface with aligned_timestamps := some video_timestamps2 }

/-- Lines 52-57: when a behavior interface is present and no explicit
starting time was supplied, take the behavior stream's first timestamp
(an empty behavior timestamp array is the Python IndexError). -/
def selectStartingTime (behavior_timestamps : Option (List ℚ))
    (aligned_starting_time : Option ℚ) : Except PyError (Option ℚ) :=
  match behavior_timestamps, aligned_starting_time with
  | some bts, none =>
    match bts.head? with
    | some b0 => Except.ok (some b0)
    | none => Except.error PyError.indexError
  | _, a => Except.ok a

/-- `temporally_align_data_interfaces(aligned_starting_time)`: returns
immediately once the `aligned` flag is set; otherwise picks the behavior
stream's first timestamp when no explicit starting time was supplied,
shifts the imaging timestamps, propagates them verbatim to the fiber
photometry and processed-imaging interfaces, aligns each video from its
TTL channel and finally sets the flag.  `set_aligned_starting_time(None)`
(no behavior stream, no explicit starting time) is the Python TypeError of
adding `None` to an array. -/
def temporally_align_data_interfaces (c : ConverterState)
    (aligned_starting_time : Option ℚ) : Except PyError ConverterState := do
  if c.aligned then Except.ok c
  else do
    let ast ← selectStartingTime c.behavior_timestamps aligned_starting_time
    match ast with
    | none => Except.error PyError.typeError
    | some t => do
      let imaging2 := c.imaging_timestamps.map (fun x => x + t)
      let aligned_timestamps := imaging2
      let processed2 := c.processed_imaging.map (fun _ => some aligned_timestamps)
      let videos2 ← exceptMap (alignVideo c.ttl aligned_timestamps) c.videos
      Except.ok { c with
        aligned := true
        imaging_timestamps := imaging2
        fiber_photometry_timestamps := some aligned_timestamps
        processed_imaging := processed2
        videos := videos2 }

/-- The guard of `single_wavelength_session_to_nwb` (lines 151-152 of
`vu2024_convert_single_wavelength_session.py`): without a behavior file and
without an explicit aligned starting time the conversion raises ValueError
before any converter is built. -/
def single_wavelength_alignment_guard (behavior_file_path : Option String)
    (aligned_starting_time : Option ℚ) : Except PyError Unit :=
  if behavior_file_path.isNone && aligned_starting_time.isNone then
    Except.error (PyError.valueError
      "Either the behavior file path or the aligned starting time must be provided.")
  else Except.ok ()

/-! ## Dual-wavelength imaging extractor
(`extractors/cxdimagingextractor.py`, `CxdImagingExtractor.__init__`) -/

/-- The descriptor produced by the Bio-Formats collaborator
(`parse_ome_metadata`). -/
structure ParsedCxdMetadata where
  num_frames : Nat
  num_channels : Nat
  num_planes : Nat
  num_rows : Nat
  num_columns : Nat
  sampling_frequency : Option ℚ
  channel_names : List String
  deriving DecidableEq, Repr

/-- The extractor state after a successful `__init__`.  A frame of the
lazily-read video is a flattened pixel list. -/
structure CxdImagingExtractor where
  num_frames : Nat
  num_channels : Nat
  num_planes : Nat
  num_rows : Nat
  num_columns : Nat
  sampling_frequency : ℚ
  channel_names : List String
  channel_index : Nat
  plane_index : Nat
  times : Option (List ℚ)
  video : List (List ℚ)
  deriving DecidableEq, Repr

/-- `CxdImagingExtractor.__init__`, embedded statement by statement.
`file_suffixes` is `Path(file_path).suffixes`, `delta_ts` the per-plane
`delta_t` values of the OME metadata, `video` the lazily-read frame array.
The `JAVA_HOME` environment shim (lines 103-105) mutates only the process
environment and is omitted.  Note the order of operations: the sampling
frequency is halved (lines 117-119) before the `None` fallback check
(lines 155-160), and the `frame_indices` assertions and subsetting happen
last (lines 170-177). -/
def cxdImagingExtractorInit
    (file_suffixes : List String)
    (parsed : ParsedCxdMetadata)
    (delta_ts : List ℚ)
    (video : List (List ℚ))
    (channel_name : Option String)
    (plane_name : Option String)
    (sampling_frequency : Option ℚ)
    (frame_indices : Option (List Nat)) :
    Except PyError CxdImagingExtractor := do
  if ".cxd" ∈ file_suffixes then do
    let sampling_frequency1 ←
      if frame_indices.isSome then
        match parsed.sampling_frequency with
        | none => Except.error PyError.typeError
        | some f => Except.ok (some (f / 2))
      else Except.ok parsed.sampling_frequency
    let plane_names := (List.range parsed.num_planes).map (fun i => toString i)
    let channel_name1 ← match channel_name with
      | none =>
        if 1 < parsed.num_channels then
          Except.error (PyError.valueError "More than one channel is detected")
        else match parsed.channel_names.head? with
          | some c => Except.ok c
          | none => Except.error PyError.indexError
      | some c => Except.ok c
    if parsed.channel_names.contains channel_name1 then do
      let channel_index := parsed.channel_names.indexOf channel_name1
      let plane_name1 ← match plane_name with
        | none =>
          if 1 < parsed.num_planes then
            Except.error (PyError.valueError "More than one plane is detected")
          else match plane_names.head? with
            | some p => Except.ok p
            | none => Except.error PyError.indexError
        | some p => Except.ok p
      if plane_names.contains plane_name1 then do
        let plane_index := plane_names.indexOf plane_name1
        let sampling_frequency2 ← match sampling_frequency1 with
          | none =>
            match sampling_frequency with
            | none => Except.error (PyError.valueError
                "Sampling frequency is not found in the metadata")
            | some f => Except.ok f
          | some f => Except.ok f
        let times0 : Option (List ℚ) :=
          if delta_ts.any (fun x => x != 0) then some delta_ts else none
        match frame_indices with
        | none =>
          Except.ok ⟨parsed.num_frames, parsed.num_channels, parsed.num_planes,
            parsed.num_rows, parsed.num_columns, sampling_frequency2,
            parsed.channel_names, channel_index, plane_index, times0, video⟩
        | some idxs =>
          if idxs.length = 0 then Except.error PyError.assertionError
          else if parsed.num_frames < idxs.length then Except.error PyError.assertionError
          else do
            let video2 ← fancyIndex video idxs
            let times2 ← match times0 with
              | none => Except.error PyError.attributeError
              | some ts => fancyIndex ts idxs
            Except.ok ⟨idxs.length, parsed.num_channels, parsed.num_planes,
              parsed.num_rows, parsed.num_columns, sampling_frequency2,
              parsed.channel_names, channel_index, plane_index, some times2, video2⟩
      else Except.error (PyError.valueError "The selected plane is not a valid plane name")
    else Except.error (PyError.valueError "The selected channel is not a valid channel name")
  else Except.error (PyError.valueError "The file suffix must be .cxd!")

/-! ## Concrete fixtures used by the witness theorems -/

/-- A minimal device record. -/
def wDev (n : String) : DeviceMetadata := ⟨n, []⟩

/-- Trace metadata of the raw series. -/
def wTraceRaw : TraceMetadata :=
  ⟨"FiberPhotometryResponseSeries", "Raw fluorescence", "Fiber1", "Ind1", "Exc1", "Pho1",
    "Dic1", "ExF1", "EmF1"⟩

/-- Trace metadata of the baseline series (name prefixed, description
substituted, as the interface derives it). -/
def wTraceBaseline : TraceMetadata :=
  { wTraceRaw with
    name := "BaselineFiberPhotometryResponseSeries"
    description := "Baseline fluorescence" }

/-- Trace metadata of the baseline-corrected series. -/
def wTraceDfOverF : TraceMetadata :=
  { wTraceRaw with
    name := "DfOverFFiberPhotometryResponseSeries"
    description := "Baseline corrected (DF/F) fluorescence" }

/-- Metadata as seen by the first (raw) call. -/
def wMeta1 : FiberPhotometryMetadata :=
  ⟨[wTraceRaw], [wDev "Fiber1"], [wDev "Ind1"], [wDev "Exc1"], [wDev "Pho1"],
    [wDev "Dic1"], [wDev "ExF1", wDev "EmF1"], []⟩

/-- Metadata after the interface appended the baseline trace entry. -/
def wMeta2 : FiberPhotometryMetadata :=
  { wMeta1 with fiberPhotometryResponseSeries := [wTraceRaw, wTraceBaseline] }

/-- Metadata after the interface appended the corrected trace entry. -/
def wMeta3 : FiberPhotometryMetadata :=
  { wMeta1 with
    fiberPhotometryResponseSeries := [wTraceRaw, wTraceBaseline, wTraceDfOverF] }

/-- One fiber location record. -/
def wLoc : FiberLocationMetadata := ⟨[1, 2, 3], [4, 5, 6], "CP", true⟩

/-- A fresh NWB file. -/
def wState0 : NWBFileState := ⟨[], none, [], []⟩

/-- Two frames of one fiber. -/
def wData : List (List ℚ) := [[1], [2]]

/-- Regularly spaced timestamps. -/
def wTs : List ℚ := [0, 1]

/-- The raw response series as the first call writes it for the fixtures. -/
def wRawSeries : FiberPhotometryResponseSeries :=
  ⟨"FiberPhotometryResponseSeries", "Raw fluorescence", wData,
    ⟨[0], "source fibers"⟩, TimingKwargs.rateStart 1 0⟩

/-- An NWB file already holding the raw series and the populated table. -/
def wStatePopulated : NWBFileState :=
  ⟨[], some [mkFiberRow wLoc wTraceRaw],
    [("FiberPhotometryResponseSeries", wRawSeries)], []⟩

/-- TTL file fixture: channel 3 rises at indices 1 and 3, channel 4 at index 2. -/
def wTTL : TTLData := ⟨[0, 1, 0, 1], [0, 0, 1, 0], [0, 1, 2, 3]⟩

/-- A body-camera video interface. -/
def wVideoBody : VideoInterfaceState := ⟨"GridDL-18_body_cam.avi", none⟩

/-- Converter fixture with a behavior stream and no videos. -/
def wConverter : ConverterState := ⟨false, [10, 11], none, some none, some [5, 6], [], wTTL⟩

/-- Converter fixture with one body video and no behavior stream. -/
def wConverterVideo : ConverterState := ⟨false, [10, 11], none, none, none, [wVideoBody], wTTL⟩

/-- Parsed Bio-Formats descriptor fixture: 4 frames, one channel, one plane,
sampling frequency 10 Hz. -/
def wParsed : ParsedCxdMetadata := ⟨4, 1, 1, 2, 2, some 10, ["Ch0"]⟩

/-- OME per-plane delta_t fixture. -/
def wDeltaTs : List ℚ := [0, 1, 2, 3]

/-- Lazily-read video fixture, one pixel per frame. -/
def wVideo : List (List ℚ) := [[1], [2], [3], [4]]


/-! # Theorems -/

/-! ## General reduction lemmas -/

theorem exceptMap_ok_length {α β : Type} (f : α → Except PyError β) :
    ∀ (l : List α) (r : List β), exceptMap f l = Except.ok r → r.length = l.length := by
  intro l
  induction l with
  | nil =>
    intro r h
    simp only [exceptMap] at h
    cases h
    rfl
  | cons a rest ih =>
    intro r h
    simp only [exceptMap, Bind.bind, Except.bind] at h
    cases hfa : f a with
    | error e => rw [hfa] at h; cases h
    | ok b =>
      rw [hfa] at h
      cases hrest : exceptMap f rest with
      | error e => rw [hrest] at h; cases h
      | ok bs =>
        rw [hrest] at h
        cases h
        simp [ih bs hrest]

@[simp] theorem ok_bind {α β : Type} (a : α) (f : α → Except PyError β) :
    (Except.ok a >>= f) = f a := rfl

@[simp] theorem error_bind {α β : Type} (e : PyError) (f : α → Except PyError β) :
    ((Except.error e : Except PyError α) >>= f) = Except.error e := rfl

@[simp] theorem registerDevice_acquisition (s : NWBFileState) (md : DeviceMetadata)
    (dt : DeviceType) : (registerDevice s md dt).acquisition = s.acquisition := by
  unfold registerDevice; split <;> rfl

@[simp] theorem registerDevice_ophys (s : NWBFileState) (md : DeviceMetadata)
    (dt : DeviceType) : (registerDevice s md dt).ophys = s.ophys := by
  unfold registerDevice; split <;> rfl

@[simp] theorem registerDevice_table (s : NWBFileState) (md : DeviceMetadata)
    (dt : DeviceType) : (registerDevice s md dt).fiberPhotometryTable = s.fiberPhotometryTable := by
  unfold registerDevice; split <;> rfl

@[simp] theorem add_fiber_photometry_table_acquisition (s : NWBFileState) :
    (add_fiber_photometry_table s).acquisition = s.acquisition := by
  unfold add_fiber_photometry_table; split <;> rfl

@[simp] theorem add_fiber_photometry_table_ophys (s : NWBFileState) :
    (add_fiber_photometry_table s).ophys = s.ophys := by
  unfold add_fiber_photometry_table; split <;> rfl

@[simp] theorem add_fiber_photometry_table_getD (s : NWBFileState) :
    (add_fiber_photometry_table s).fiberPhotometryTable.getD []
      = s.fiberPhotometryTable.getD [] := by
  unfold add_fiber_photometry_table
  cases h : s.fiberPhotometryTable <;> simp [h]

/-! ## Reduction lemmas for `add_fiber_photometry_series` -/

theorem timing_reuse_eq (t : TimingKwargs) :
    (match t with
     | TimingKwargs.explicit ts => TimingKwargs.explicit ts
     | TimingKwargs.rateStart r t0 => TimingKwargs.rateStart r t0) = t := by
  cases t <;> rfl

theorem add_fiber_photometry_table_of_isSome (s : NWBFileState)
    (h : s.fiberPhotometryTable.isSome) : add_fiber_photometry_table s = s := by
  unfold add_fiber_photometry_table
  simp [h]

theorem attachSeries_acq (s : NWBFileState) (series : FiberPhotometryResponseSeries) :
    attachSeries s "acquisition" series
      = Except.ok { s with acquisition := s.acquisition ++ [(series.name, series)] } := rfl

theorem attachSeries_processing (s : NWBFileState) (series : FiberPhotometryResponseSeries) :
    attachSeries s "processing/ophys" series
      = Except.ok { s with ophys := s.ophys ++ [(series.name, series)] } := rfl

/-- Reduction of `add_fiber_photometry_series` on the EMPTY-to-POPULATED
transition: the default (raw) series name is not yet in the acquisition
container, so rows are appended, a fresh table region is created and the
timing is computed from the timestamp array. -/
theorem addSeries_emptyBranch
    (s : NWBFileState) (metadata : FiberPhotometryMetadata)
    (data : List (List ℚ)) (ts : List ℚ) (nm : String)
    (locs : List FiberLocationMetadata) (tr : Option (List Nat))
    (tm : TraceMetadata) (fm im xm pm dm bf em : DeviceMetadata)
    (rows : List FiberRow) (tk : TimingKwargs)
    (hfind : metadata.fiberPhotometryResponseSeries.find? (fun t => t.name == nm) = some tm)
    (hfib : findDevice metadata.opticalFibers tm.optical_fiber = some fm)
    (hind : findDevice metadata.indicator tm.indicator = some im)
    (hexc : findDevice metadata.excitationSources tm.excitation_source = some xm)
    (hpho : findDevice metadata.photodetectors tm.photodetector = some pm)
    (hdic : findDevice metadata.dichroicMirrors tm.dichroic_mirror = some dm)
    (hexf : findDevice metadata.bandOpticalFilters tm.excitation_filter = some bf)
    (hemf : resolveEmissionFilter metadata tm.emission_filter = some em)
    (hacq : s.acquisition.find?
      (fun p => p.1 == (metadata.fiberPhotometryResponseSeries.headD tm).name) = none)
    (hrows : buildRows (data.headD []).length locs tm = Except.ok rows)
    (htk : computeTiming ts = Except.ok tk) :
    ∃ s1, add_fiber_photometry_series s metadata data ts nm locs tr "acquisition"
        = Except.ok s1 ∧
      s1.fiberPhotometryTable = some (s.fiberPhotometryTable.getD [] ++ rows) ∧
      s1.acquisition = s.acquisition ++ [(tm.name,
        ⟨tm.name, tm.description, data,
          ⟨tr.getD (List.range (data.headD []).length), "source fibers"⟩, tk⟩)] ∧
      s1.ophys = s.ophys := by
  simp only [add_fiber_photometry_series, hfind, ok_bind, add_photometry_device, hfib, hind,
    hexc, hpho, hdic, hexf, hemf, registerDevice_acquisition,
    add_fiber_photometry_table_acquisition, hacq, hrows, htk, attachSeries]
  refine ⟨_, rfl, ?_, ?_, ?_⟩ <;>
    simp [registerDevice_table, registerDevice_ophys, add_fiber_photometry_table_ophys,
      add_fiber_photometry_table_getD]

/-- Reduction of `add_fiber_photometry_series` in the POPULATED state: the
default (raw) series is already in the acquisition container, so the table
is untouched and the raw series' region and timing are reused. -/
theorem addSeries_reuseBranch
    (s : NWBFileState) (metadata : FiberPhotometryMetadata)
    (data : List (List ℚ)) (ts : List ℚ) (nm : String)
    (locs : List FiberLocationMetadata) (tr : Option (List Nat))
    (tm : TraceMetadata) (fm im xm pm dm bf em : DeviceMetadata)
    (entryName : String) (raw : FiberPhotometryResponseSeries)
    (hfind : metadata.fiberPhotometryResponseSeries.find? (fun t => t.name == nm) = some tm)
    (hfib : findDevice metadata.opticalFibers tm.optical_fiber = some fm)
    (hind : findDevice metadata.indicator tm.indicator = some im)
    (hexc : findDevice metadata.excitationSources tm.excitation_source = some xm)
    (hpho : findDevice metadata.photodetectors tm.photodetector = some pm)
    (hdic : findDevice metadata.dichroicMirrors tm.dichroic_mirror = some dm)
    (hexf : findDevice metadata.bandOpticalFilters tm.excitation_filter = some bf)
    (hemf : resolveEmissionFilter metadata tm.emission_filter = some em)
    (htab : s.fiberPhotometryTable.isSome)
    (hacq : s.acquisition.find?
      (fun p => p.1 == (metadata.fiberPhotometryResponseSeries.headD tm).name)
      = some (entryName, raw)) :
    ∃ s1, add_fiber_photometry_series s metadata data ts nm locs tr "processing/ophys"
        = Except.ok s1 ∧
      s1.fiberPhotometryTable = s.fiberPhotometryTable ∧
      s1.acquisition = s.acquisition ∧
      s1.ophys = s.ophys ++ [(tm.name,
        ⟨tm.name, tm.description, data,
          raw.fiber_photometry_table_region, raw.timing⟩)] := by
  simp only [add_fiber_photometry_series, hfind, ok_bind, add_photometry_device, hfib, hind,
    hexc, hpho, hdic, hexf, hemf, registerDevice_acquisition,
    add_fiber_photometry_table_of_isSome s htab, hacq, attachSeries_processing, timing_reuse_eq]
  refine ⟨_, rfl, ?_, ?_, ?_⟩ <;>
    simp [registerDevice_table, registerDevice_ophys]

/-- A detected regular rate needs at least two timestamps, hence a head. -/
theorem crsr_some_shape (ts : List ℚ) (r : ℚ)
    (h : calculate_regular_series_rate ts = some r) :
    ∃ t0 t1 rest, ts = t0 :: t1 :: rest := by
  unfold calculate_regular_series_rate at h
  cases ts with
  | nil => cases h
  | cons a tl =>
    cases tl with
    | nil => cases h
    | cons b tl2 => exact ⟨a, b, tl2, rfl⟩

theorem computeTiming_of_rate (ts : List ℚ) (r : ℚ)
    (h : calculate_regular_series_rate ts = some r) :
    computeTiming ts = Except.ok (TimingKwargs.rateStart r (ts.headD 0)) := by
  obtain ⟨t0, t1, rest, rfl⟩ := crsr_some_shape ts r h
  unfold computeTiming
  rw [h]
  rfl

theorem computeTiming_of_irregular (ts : List ℚ)
    (h : calculate_regular_series_rate ts = none) :
    computeTiming ts = Except.ok (TimingKwargs.explicit ts) := by
  unfold computeTiming
  rw [h]


/-! ## Claim theorems -/

/-- C1: for a fresh session, the first call to `add_fiber_photometry_series`
populates the fiber photometry table with exactly one row per fiber (one
for each fiber index below the column count of the data), and after the
raw, baseline and corrected series sharing the fiber set have all been
added, the table row count still equals the number of fibers — the later
calls see the raw series in the acquisition container and leave the table
untouched. -/
theorem c1_fiber_table_populated_exactly_once
    (s0 : NWBFileState) (meta1 meta2 meta3 : FiberPhotometryMetadata)
    (data1 data2 data3 : List (List ℚ)) (ts : List ℚ)
    (nm1 nm2 nm3 : String) (locs : List FiberLocationMetadata)
    (tr1 tr2 tr3 : Option (List Nat))
    (tm1 tm2 tm3 : TraceMetadata)
    (fm1 im1 xm1 pm1 dm1 bf1 em1 : DeviceMetadata)
    (fm2 im2 xm2 pm2 dm2 bf2 em2 : DeviceMetadata)
    (fm3 im3 xm3 pm3 dm3 bf3 em3 : DeviceMetadata)
    (rows : List FiberRow) (tk : TimingKwargs)
    (hs0tab : s0.fiberPhotometryTable = none)
    (hs0acq : s0.acquisition = [])
    (hfind1 : meta1.fiberPhotometryResponseSeries.find? (fun t => t.name == nm1) = some tm1)
    (hfib1 : findDevice meta1.opticalFibers tm1.optical_fiber = some fm1)
    (hind1 : findDevice meta1.indicator tm1.indicator = some im1)
    (hexc1 : findDevice meta1.excitationSources tm1.excitation_source = some xm1)
    (hpho1 : findDevice meta1.photodetectors tm1.photodetector = some pm1)
    (hdic1 : findDevice meta1.dichroicMirrors tm1.dichroic_mirror = some dm1)
    (hexf1 : findDevice meta1.bandOpticalFilters tm1.excitation_filter = some bf1)
    (hemf1 : resolveEmissionFilter meta1 tm1.emission_filter = some em1)
    (hrows : buildRows (data1.headD []).length locs tm1 = Except.ok rows)
    (htk : computeTiming ts = Except.ok tk)
    (hfind2 : meta2.fiberPhotometryResponseSeries.find? (fun t => t.name == nm2) = some tm2)
    (hfib2 : findDevice meta2.opticalFibers tm2.optical_fiber = some fm2)
    (hind2 : findDevice meta2.indicator tm2.indicator = some im2)
    (hexc2 : findDevice meta2.excitationSources tm2.excitation_source = some xm2)
    (hpho2 : findDevice meta2.photodetectors tm2.photodetector = some pm2)
    (hdic2 : findDevice meta2.dichroicMirrors tm2.dichroic_mirror = some dm2)
    (hexf2 : findDevice meta2.bandOpticalFilters tm2.excitation_filter = some bf2)
    (hemf2 : resolveEmissionFilter meta2 tm2.emission_filter = some em2)
    (hhead2 : (meta2.fiberPhotometryResponseSeries.headD tm2).name = tm1.name)
    (hfind3 : meta3.fiberPhotometryResponseSeries.find? (fun t => t.name == nm3) = some tm3)
    (hfib3 : findDevice meta3.opticalFibers tm3.optical_fiber = some fm3)
    (hind3 : findDevice meta3.indicator tm3.indicator = some im3)
    (hexc3 : findDevice meta3.excitationSources tm3.excitation_source = some xm3)
    (hpho3 : findDevice meta3.photodetectors tm3.photodetector = some pm3)
    (hdic3 : findDevice meta3.dichroicMirrors tm3.dichroic_mirror = some dm3)
    (hexf3 : findDevice meta3.bandOpticalFilters tm3.excitation_filter = some bf3)
    (hemf3 : resolveEmissionFilter meta3 tm3.emission_filter = some em3)
    (hhead3 : (meta3.fiberPhotometryResponseSeries.headD tm3).name = tm1.name) :
    ∃ s1 s2 s3,
      add_fiber_photometry_series s0 meta1 data1 ts nm1 locs tr1 "acquisition"
        = Except.ok s1 ∧
      s1.fiberPhotometryTable = some rows ∧
      rows.length = (data1.headD []).length ∧
      add_fiber_photometry_series s1 meta2 data2 ts nm2 locs tr2 "processing/ophys"
        = Except.ok s2 ∧
      add_fiber_photometry_series s2 meta3 data3 ts nm3 locs tr3 "processing/ophys"
        = Except.ok s3 ∧
      s2.fiberPhotometryTable = some rows ∧
      s3.fiberPhotometryTable = some rows := by
  obtain ⟨s1, hc1, h1tab, h1acq, h1oph⟩ :=
    addSeries_emptyBranch s0 meta1 data1 ts nm1 locs tr1 tm1 fm1 im1 xm1 pm1 dm1 bf1 em1
      rows tk hfind1 hfib1 hind1 hexc1 hpho1 hdic1 hexf1 hemf1
      (by rw [hs0acq]; rfl) hrows htk
  rw [hs0tab] at h1tab
  simp only [Option.getD_none, List.nil_append] at h1tab
  rw [hs0acq, List.nil_append] at h1acq
  have h1tabSome : s1.fiberPhotometryTable.isSome := by rw [h1tab]; rfl
  have hacq2 : s1.acquisition.find?
      (fun p => p.1 == (meta2.fiberPhotometryResponseSeries.headD tm2).name)
      = some (tm1.name,
        ⟨tm1.name, tm1.description, data1,
          ⟨tr1.getD (List.range (data1.headD []).length), "source fibers"⟩, tk⟩) := by
    rw [h1acq, hhead2]
    simp [List.find?]
  obtain ⟨s2, hc2, h2tab, h2acq, h2oph⟩ :=
    addSeries_reuseBranch s1 meta2 data2 ts nm2 locs tr2 tm2 fm2 im2 xm2 pm2 dm2 bf2 em2
      tm1.name _ hfind2 hfib2 hind2 hexc2 hpho2 hdic2 hexf2 hemf2 h1tabSome hacq2
  have h2tabSome : s2.fiberPhotometryTable.isSome := by rw [h2tab, h1tab]; rfl
  have hacq3 : s2.acquisition.find?
      (fun p => p.1 == (meta3.fiberPhotometryResponseSeries.headD tm3).name)
      = some (tm1.name,
        ⟨tm1.name, tm1.description, data1,
          ⟨tr1.getD (List.range (data1.headD []).length), "source fibers"⟩, tk⟩) := by
    rw [h2acq, h1acq, hhead3]
    simp [List.find?]
  obtain ⟨s3, hc3, h3tab, h3acq, h3oph⟩ :=
    addSeries_reuseBranch s2 meta3 data3 ts nm3 locs tr3 tm3 fm3 im3 xm3 pm3 dm3 bf3 em3
      tm1.name _ hfind3 hfib3 hind3 hexc3 hpho3 hdic3 hexf3 hemf3 h2tabSome hacq3
  refine ⟨s1, s2, s3, hc1, h1tab, ?_, hc2, hc3, ?_, ?_⟩
  · have hlen := exceptMap_ok_length _ _ _ hrows
    simpa using hlen
  · rw [h2tab, h1tab]
  · rw [h3tab, h2tab, h1tab]

/-- Witness for C1 at a concrete one-fiber session: raw, baseline and
corrected series added in sequence leave exactly one table row. -/
theorem c1_witness :
    ∃ s1 s2 s3,
      add_fiber_photometry_series wState0 wMeta1 wData wTs
        "FiberPhotometryResponseSeries" [wLoc] none "acquisition" = Except.ok s1 ∧
      s1.fiberPhotometryTable = some [mkFiberRow wLoc wTraceRaw] ∧
      [mkFiberRow wLoc wTraceRaw].length = (wData.headD []).length ∧
      add_fiber_photometry_series s1 wMeta2 wData wTs
        "BaselineFiberPhotometryResponseSeries" [wLoc] none "processing/ophys"
        = Except.ok s2 ∧
      add_fiber_photometry_series s2 wMeta3 wData wTs
        "DfOverFFiberPhotometryResponseSeries" [wLoc] none "processing/ophys"
        = Except.ok s3 ∧
      s2.fiberPhotometryTable = some [mkFiberRow wLoc wTraceRaw] ∧
      s3.fiberPhotometryTable = some [mkFiberRow wLoc wTraceRaw] :=
  c1_fiber_table_populated_exactly_once wState0 wMeta1 wMeta2 wMeta3 wData wData wData wTs
    "FiberPhotometryResponseSeries" "BaselineFiberPhotometryResponseSeries"
    "DfOverFFiberPhotometryResponseSeries" [wLoc] none none none
    wTraceRaw wTraceBaseline wTraceDfOverF
    (wDev "Fiber1") (wDev "Ind1") (wDev "Exc1") (wDev "Pho1") (wDev "Dic1")
    (wDev "ExF1") (wDev "EmF1")
    (wDev "Fiber1") (wDev "Ind1") (wDev "Exc1") (wDev "Pho1") (wDev "Dic1")
    (wDev "ExF1") (wDev "EmF1")
    (wDev "Fiber1") (wDev "Ind1") (wDev "Exc1") (wDev "Pho1") (wDev "Dic1")
    (wDev "ExF1") (wDev "EmF1")
    [mkFiberRow wLoc wTraceRaw] (TimingKwargs.rateStart 1 0)
    rfl rfl rfl rfl rfl rfl rfl rfl rfl rfl rfl
    (by simp [computeTiming, calculate_regular_series_rate, wTs])
    rfl rfl rfl rfl rfl rfl rfl rfl rfl
    rfl rfl rfl rfl rfl rfl rfl rfl rfl

/-- C2: once the raw series is present in the acquisition container under
the default series name, a later series addition reuses the raw series'
`fiber_photometry_table_region` value and its timing descriptor unchanged,
and the result does not depend on the `table_region` argument supplied for
the later series. -/
theorem c2_later_series_reuses_region_and_timing
    (s : NWBFileState) (metadata : FiberPhotometryMetadata)
    (data : List (List ℚ)) (ts : List ℚ) (nm : String)
    (locs : List FiberLocationMetadata)
    (tm : TraceMetadata) (fm im xm pm dm bf em : DeviceMetadata)
    (entryName : String) (raw : FiberPhotometryResponseSeries)
    (tr1 tr2 : Option (List Nat))
    (hfind : metadata.fiberPhotometryResponseSeries.find? (fun t => t.name == nm) = some tm)
    (hfib : findDevice metadata.opticalFibers tm.optical_fiber = some fm)
    (hind : findDevice metadata.indicator tm.indicator = some im)
    (hexc : findDevice metadata.excitationSources tm.excitation_source = some xm)
    (hpho : findDevice metadata.photodetectors tm.photodetector = some pm)
    (hdic : findDevice metadata.dichroicMirrors tm.dichroic_mirror = some dm)
    (hexf : findDevice metadata.bandOpticalFilters tm.excitation_filter = some bf)
    (hemf : resolveEmissionFilter metadata tm.emission_filter = some em)
    (htab : s.fiberPhotometryTable.isSome)
    (hacq : s.acquisition.find?
      (fun p => p.1 == (metadata.fiberPhotometryResponseSeries.headD tm).name)
      = some (entryName, raw)) :
    (∃ s1, add_fiber_photometry_series s metadata data ts nm locs tr1 "processing/ophys"
        = Except.ok s1 ∧
      s1.ophys = s.ophys ++ [(tm.name,
        ⟨tm.name, tm.description, data,
          raw.fiber_photometry_table_region, raw.timing⟩)]) ∧
    add_fiber_photometry_series s metadata data ts nm locs tr1 "processing/ophys"
      = add_fiber_photometry_series s metadata data ts nm locs tr2 "processing/ophys" := by
  constructor
  · obtain ⟨s1, hc, _, _, hop⟩ :=
      addSeries_reuseBranch s metadata data ts nm locs tr1 tm fm im xm pm dm bf em
        entryName raw hfind hfib hind hexc hpho hdic hexf hemf htab hacq
    exact ⟨s1, hc, hop⟩
  · simp only [add_fiber_photometry_series, hfind, ok_bind, add_photometry_device, hfib, hind,
      hexc, hpho, hdic, hexf, hemf, registerDevice_acquisition,
      add_fiber_photometry_table_of_isSome s htab, hacq, attachSeries_processing,
      timing_reuse_eq]

/-- Witness for C2 at a concrete populated session, with two different
`table_region` arguments. -/
theorem c2_witness :
    (∃ s1, add_fiber_photometry_series wStatePopulated wMeta2 wData wTs
        "BaselineFiberPhotometryResponseSeries" [wLoc] (some [3]) "processing/ophys"
        = Except.ok s1 ∧
      s1.ophys = wStatePopulated.ophys ++ [(wTraceBaseline.name,
        ⟨wTraceBaseline.name, wTraceBaseline.description, wData,
          wRawSeries.fiber_photometry_table_region, wRawSeries.timing⟩)]) ∧
    add_fiber_photometry_series wStatePopulated wMeta2 wData wTs
        "BaselineFiberPhotometryResponseSeries" [wLoc] (some [3]) "processing/ophys"
      = add_fiber_photometry_series wStatePopulated wMeta2 wData wTs
        "BaselineFiberPhotometryResponseSeries" [wLoc] none "processing/ophys" :=
  c2_later_series_reuses_region_and_timing wStatePopulated wMeta2 wData wTs
    "BaselineFiberPhotometryResponseSeries" [wLoc] wTraceBaseline
    (wDev "Fiber1") (wDev "Ind1") (wDev "Exc1") (wDev "Pho1") (wDev "Dic1")
    (wDev "ExF1") (wDev "EmF1") "FiberPhotometryResponseSeries" wRawSeries
    (some [3]) none
    rfl rfl rfl rfl rfl rfl rfl rfl rfl rfl

/-- C3: registering a photometry device whose name is not yet taken inserts
it, and registering any device record with the same name again is a silent
no-op that leaves the document state identical — exactly one device exists
under that name and the first record's fields are never overwritten. -/
theorem c3_add_photometry_device_idempotent
    (s : NWBFileState) (md1 md2 : DeviceMetadata) (dt1 dt2 : DeviceType)
    (hname : md2.name = md1.name)
    (hfresh : s.devices.any (fun d => d.1 == md1.name) = false) :
    ∃ s1, add_photometry_device s (some md1) dt1 = Except.ok s1 ∧
      add_photometry_device s1 (some md2) dt2 = Except.ok s1 ∧
      s1.devices.filter (fun d => d.1 == md1.name) = [(md1.name, ⟨dt1, md1⟩)] := by
  have h1 : registerDevice s md1 dt1
      = { s with devices := s.devices ++ [(md1.name, ⟨dt1, md1⟩)] } := by
    unfold registerDevice
    rw [hfresh]
    simp
  refine ⟨registerDevice s md1 dt1, rfl, ?_, ?_⟩
  · simp only [add_photometry_device]
    congr 1
    rw [h1]
    simp [registerDevice, List.any_append, hname, hfresh]
  · rw [h1]
    have hnil : s.devices.filter (fun d => d.1 == md1.name) = [] := by
      rw [List.filter_eq_nil_iff]
      rw [List.any_eq_false] at hfresh
      exact hfresh
    simp [List.filter_append, hnil]

/-- Witness for C3: registering the same name twice (even under a different
device kind and record) keeps exactly the first device. -/
theorem c3_witness :
    ∃ s1, add_photometry_device wState0 (some (wDev "Fiber1")) DeviceType.OpticalFiber
        = Except.ok s1 ∧
      add_photometry_device s1 (some ⟨"Fiber1", [("model", "other")]⟩) DeviceType.Indicator
        = Except.ok s1 ∧
      s1.devices.filter (fun d => d.1 == "Fiber1")
        = [("Fiber1", ⟨DeviceType.OpticalFiber, wDev "Fiber1"⟩)] :=
  c3_add_photometry_device_idempotent wState0 (wDev "Fiber1")
    ⟨"Fiber1", [("model", "other")]⟩ DeviceType.OpticalFiber DeviceType.Indicator rfl rfl

/-- C4 (documents the code bug): when the optical fiber name of the trace
metadata has no record in the `OpticalFibers` table, the unchecked `None`
flows into `add_photometry_device` and the call fails with TypeError, not
the ValueError the claim states; the six other unresolvable device names
do fail with ValueError. -/
theorem c4_unresolved_device_failure_modes :
    add_fiber_photometry_series wState0 { wMeta1 with opticalFibers := [] } wData wTs
        "FiberPhotometryResponseSeries" [wLoc] none "acquisition"
      = Except.error PyError.typeError ∧
    add_fiber_photometry_series wState0 { wMeta1 with indicator := [] } wData wTs
        "FiberPhotometryResponseSeries" [wLoc] none "acquisition"
      = Except.error (PyError.valueError "Indicator metadata not found.") ∧
    add_fiber_photometry_series wState0 { wMeta1 with excitationSources := [] } wData wTs
        "FiberPhotometryResponseSeries" [wLoc] none "acquisition"
      = Except.error (PyError.valueError "Excitation source metadata not found.") ∧
    add_fiber_photometry_series wState0 { wMeta1 with photodetectors := [] } wData wTs
        "FiberPhotometryResponseSeries" [wLoc] none "acquisition"
      = Except.error (PyError.valueError "Photodetector metadata not found.") ∧
    add_fiber_photometry_series wState0 { wMeta1 with dichroicMirrors := [] } wData wTs
        "FiberPhotometryResponseSeries" [wLoc] none "acquisition"
      = Except.error (PyError.valueError "Dichroic mirror metadata not found.") ∧
    add_fiber_photometry_series wState0 { wMeta1 with bandOpticalFilters := [wDev "EmF1"] }
        wData wTs "FiberPhotometryResponseSeries" [wLoc] none "acquisition"
      = Except.error (PyError.valueError "Optical filter metadata not found.") ∧
    add_fiber_photometry_series wState0 { wMeta1 with bandOpticalFilters := [wDev "ExF1"] }
        wData wTs "FiberPhotometryResponseSeries" [wLoc] none "acquisition"
      = Except.error (PyError.valueError "Emission filter metadata not found.") :=
  ⟨rfl, rfl, rfl, rfl, rfl, rfl, rfl⟩

/-- C6: for the first series of a session the timing descriptor takes
exactly one of two forms — when the rate detector fires the series carries
`(rate, starting_time = timestamps[0])`, otherwise it carries the explicit
timestamp array. -/
theorem c6_first_series_timing_dichotomy
    (s : NWBFileState) (metadata : FiberPhotometryMetadata)
    (data : List (List ℚ)) (ts : List ℚ) (nm : String)
    (locs : List FiberLocationMetadata) (tr : Option (List Nat))
    (tm : TraceMetadata) (fm im xm pm dm bf em : DeviceMetadata)
    (rows : List FiberRow)
    (hfind : metadata.fiberPhotometryResponseSeries.find? (fun t => t.name == nm) = some tm)
    (hfib : findDevice metadata.opticalFibers tm.optical_fiber = some fm)
    (hind : findDevice metadata.indicator tm.indicator = some im)
    (hexc : findDevice metadata.excitationSources tm.excitation_source = some xm)
    (hpho : findDevice metadata.photodetectors tm.photodetector = some pm)
    (hdic : findDevice metadata.dichroicMirrors tm.dichroic_mirror = some dm)
    (hexf : findDevice metadata.bandOpticalFilters tm.excitation_filter = some bf)
    (hemf : resolveEmissionFilter metadata tm.emission_filter = some em)
    (hacq : s.acquisition.find?
      (fun p => p.1 == (metadata.fiberPhotometryResponseSeries.headD tm).name) = none)
    (hrows : buildRows (data.headD []).length locs tm = Except.ok rows) :
    (∀ r, calculate_regular_series_rate ts = some r →
      ∃ s1, add_fiber_photometry_series s metadata data ts nm locs tr "acquisition"
          = Except.ok s1 ∧
        s1.acquisition = s.acquisition ++ [(tm.name,
          ⟨tm.name, tm.description, data,
            ⟨tr.getD (List.range (data.headD []).length), "source fibers"⟩,
            TimingKwargs.rateStart r (ts.headD 0)⟩)]) ∧
    (calculate_regular_series_rate ts = none →
      ∃ s1, add_fiber_photometry_series s metadata data ts nm locs tr "acquisition"
          = Except.ok s1 ∧
        s1.acquisition = s.acquisition ++ [(tm.name,
          ⟨tm.name, tm.description, data,
            ⟨tr.getD (List.range (data.headD []).length), "source fibers"⟩,
            TimingKwargs.explicit ts⟩)]) := by
  constructor
  · intro r hr
    obtain ⟨s1, hc, _, hacq1, _⟩ :=
      addSeries_emptyBranch s metadata data ts nm locs tr tm fm im xm pm dm bf em rows _
        hfind hfib hind hexc hpho hdic hexf hemf hacq hrows (computeTiming_of_rate ts r hr)
    exact ⟨s1, hc, hacq1⟩
  · intro hr
    obtain ⟨s1, hc, _, hacq1, _⟩ :=
      addSeries_emptyBranch s metadata data ts nm locs tr tm fm im xm pm dm bf em rows _
        hfind hfib hind hexc hpho hdic hexf hemf hacq hrows (computeTiming_of_irregular ts hr)
    exact ⟨s1, hc, hacq1⟩

/-- Witness for C6 on a regularly spaced timestamp fixture: the first
series is written with `(rate, starting_time)`. -/
theorem c6_witness :
    ∃ s1, add_fiber_photometry_series wState0 wMeta1 wData wTs
        "FiberPhotometryResponseSeries" [wLoc] none "acquisition" = Except.ok s1 ∧
      s1.acquisition = wState0.acquisition ++ [(wTraceRaw.name,
        ⟨wTraceRaw.name, wTraceRaw.description, wData,
          ⟨(none : Option (List Nat)).getD (List.range (wData.headD []).length),
            "source fibers"⟩,
          TimingKwargs.rateStart 1 (wTs.headD 0)⟩)] :=
  (c6_first_series_timing_dichotomy wState0 wMeta1 wData wTs
    "FiberPhotometryResponseSeries" [wLoc] none wTraceRaw
    (wDev "Fiber1") (wDev "Ind1") (wDev "Exc1") (wDev "Pho1") (wDev "Dic1")
    (wDev "ExF1") (wDev "EmF1") [mkFiberRow wLoc wTraceRaw]
    rfl rfl rfl rfl rfl rfl rfl rfl rfl rfl).1 1
    (by simp [calculate_regular_series_rate, wTs])

/-- C10 counterexample: on the spec fixture the derived event intervals are
(2,5) and (7,8), not the claimed (2,4) and (7,7) — the stop index is the
sample at which the signal has returned to 0, one past the last on-sample. -/
theorem c10_counterexample :
    deriveEventIntervals [0, 0, 1, 1, 1, 0, 0, 1, 0] [0, 1, 2, 3, 4, 5, 6, 7, 8]
      ≠ Except.ok [((2 : ℚ), (4 : ℚ)), (7, 7)] := by
  rw [show deriveEventIntervals [0, 0, 1, 1, 1, 0, 0, 1, 0] [0, 1, 2, 3, 4, 5, 6, 7, 8]
    = Except.ok [((2 : ℚ), (5 : ℚ)), (7, 8)] from rfl]
  simp

/-- C10 (amended): the derived event intervals on the fixture are the
start/stop pairs (2,5) and (7,8), the stop time mapping the first index at
which the signal is 0 again. -/
theorem c10_event_intervals_amended :
    deriveEventIntervals [0, 0, 1, 1, 1, 0, 0, 1, 0] [0, 1, 2, 3, 4, 5, 6, 7, 8]
      = Except.ok [((2 : ℚ), (5 : ℚ)), (7, 8)] := rfl


/-- Reduction of `CxdImagingExtractor.__init__` under a single-channel,
single-plane configuration with a known metadata sampling frequency, down
to the `frame_indices` handling. -/
theorem cxdInit_reduction
    (suffixes : List String) (parsed : ParsedCxdMetadata) (delta_ts : List ℚ)
    (video : List (List ℚ)) (idxs : List Nat) (f : ℚ) (ch : String)
    (hsuff : ".cxd" ∈ suffixes)
    (hsf : parsed.sampling_frequency = some f)
    (hch : parsed.num_channels = 1)
    (hcn : parsed.channel_names = [ch])
    (hpl : parsed.num_planes = 1)
    (hdt : delta_ts.any (fun x => x != 0) = true) :
    cxdImagingExtractorInit suffixes parsed delta_ts video none none none (some idxs)
      = (if idxs.length = 0 then Except.error PyError.assertionError
        else if parsed.num_frames < idxs.length then Except.error PyError.assertionError
        else do
          let v2 ← fancyIndex video idxs
          let t2 ← fancyIndex delta_ts idxs
          Except.ok ⟨idxs.length, parsed.num_channels, parsed.num_planes, parsed.num_rows,
            parsed.num_columns, f / 2, parsed.channel_names, 0, 0, some t2, v2⟩) := by
  simp only [cxdImagingExtractorInit, hsf, hch, hcn, hpl, hdt, if_pos hsuff,
    Option.isSome_some, if_true, lt_self_iff_false, if_false, List.head?, ok_bind,
    show List.range 1 = [0] from rfl, List.map_cons, List.map_nil, List.contains_cons,
    beq_self_eq_true, Bool.true_or, List.indexOf_cons_self, List.elem_nil, Bool.or_false]

/-- C5: when a behavior stream is present and no explicit
`aligned_starting_time` was supplied, the aligner shifts the imaging
timeline by the behavior stream's first timestamp; and with neither a
behavior file nor an explicit starting time the conversion driver fails
with ValueError before any converter is built. -/
theorem c5_alignment_starting_time_selection (c : ConverterState) (b0 : ℚ) (bts : List ℚ)
    (h1 : c.aligned = false)
    (h2 : c.behavior_timestamps = some (b0 :: bts))
    (h3 : c.videos = []) :
    (∃ c2, temporally_align_data_interfaces c none = Except.ok c2 ∧
      c2.imaging_timestamps = c.imaging_timestamps.map (fun x => x + b0)) ∧
    single_wavelength_alignment_guard none none
      = Except.error (PyError.valueError
        "Either the behavior file path or the aligned starting time must be provided.") := by
  constructor
  · refine ⟨{ c with
      aligned := true
      imaging_timestamps := c.imaging_timestamps.map (fun x => x + b0)
      fiber_photometry_timestamps := some (c.imaging_timestamps.map (fun x => x + b0))
      processed_imaging := c.processed_imaging.map
        (fun _ => some (c.imaging_timestamps.map (fun x => x + b0)))
      videos := [] }, ?_, by rfl⟩
    simp only [temporally_align_data_interfaces, h1, h2, h3, selectStartingTime, List.head?,
      exceptMap, ok_bind, Bool.false_eq_true, if_false]
  · rfl

/-- Witness for C5 on the behavior-bearing converter fixture (starting
time 5) and the driver guard with neither input. -/
theorem c5_witness :
    (∃ c2, temporally_align_data_interfaces wConverter none = Except.ok c2 ∧
      c2.imaging_timestamps = wConverter.imaging_timestamps.map (fun x => x + 5)) ∧
    single_wavelength_alignment_guard none none
      = Except.error (PyError.valueError
        "Either the behavior file path or the aligned starting time must be provided.") :=
  c5_alignment_starting_time_selection wConverter 5 [6] rfl rfl rfl

/-- C7: with `frame_indices` supplied, construction asserts the list is
non-empty and no longer than the native frame count; on success the
reported frame count is the index count, video and times are the selected
subsets, and the reported sampling frequency is half the metadata value. -/
theorem c7_frame_indices_contract
    (suffixes : List String) (parsed : ParsedCxdMetadata) (delta_ts : List ℚ)
    (video : List (List ℚ)) (idxs : List Nat) (f : ℚ) (ch : String)
    (hsuff : ".cxd" ∈ suffixes)
    (hsf : parsed.sampling_frequency = some f)
    (hch : parsed.num_channels = 1)
    (hcn : parsed.channel_names = [ch])
    (hpl : parsed.num_planes = 1)
    (hdt : delta_ts.any (fun x => x != 0) = true) :
    (idxs = [] →
      cxdImagingExtractorInit suffixes parsed delta_ts video none none none (some idxs)
        = Except.error PyError.assertionError) ∧
    (parsed.num_frames < idxs.length →
      cxdImagingExtractorInit suffixes parsed delta_ts video none none none (some idxs)
        = Except.error PyError.assertionError) ∧
    (∀ v2 t2, idxs ≠ [] → idxs.length ≤ parsed.num_frames →
      fancyIndex video idxs = Except.ok v2 → fancyIndex delta_ts idxs = Except.ok t2 →
      cxdImagingExtractorInit suffixes parsed delta_ts video none none none (some idxs)
        = Except.ok ⟨idxs.length, parsed.num_channels, parsed.num_planes, parsed.num_rows,
            parsed.num_columns, f / 2, parsed.channel_names, 0, 0, some t2, v2⟩) := by
  rw [cxdInit_reduction suffixes parsed delta_ts video idxs f ch hsuff hsf hch hcn hpl hdt]
  refine ⟨?_, ?_, ?_⟩
  · intro h
    subst h
    simp
  · intro hlt
    have h0 : ¬ idxs.length = 0 := by omega
    rw [if_neg h0, if_pos hlt]
  · intro v2 t2 hne hle hv ht
    have h0 : ¬ idxs.length = 0 := by
      intro hc
      exact hne (List.eq_nil_of_length_eq_zero hc)
    rw [if_neg h0, if_neg (Nat.not_lt.mpr hle), hv, ok_bind, ht, ok_bind]

/-- Witness for C7: selecting frames 0 and 2 of a 4-frame 10 Hz file
yields a 2-frame extractor at 5 Hz with the matching video and time
subsets. -/
theorem c7_witness :
    cxdImagingExtractorInit [".cxd"] wParsed wDeltaTs wVideo none none none (some [0, 2])
      = Except.ok ⟨2, 1, 1, 2, 2, (10 : ℚ) / 2, ["Ch0"], 0, 0, some [0, 2], [[1], [3]]⟩ :=
  (c7_frame_indices_contract [".cxd"] wParsed wDeltaTs wVideo [0, 2] 10 "Ch0"
    (by simp) rfl rfl rfl rfl rfl).2.2 [[1], [3]] [0, 2]
    (by decide) (by decide) rfl rfl

/-- C8: the aligner infers each video's TTL channel from the file name —
any of body/top/video1 selects ttlIn3, else any of lick/face/side/video2
selects ttlIn4 — assigns that channel's rising-edge timestamps (truncated
to the imaging frame count when longer) as the video's aligned
timestamps, and raises ValueError when the name matches neither
vocabulary. -/
theorem c8_video_ttl_channel_inference (c : ConverterState) (v : VideoInterfaceState)
    (t : ℚ) (w3 w4 : List ℚ)
    (h1 : c.aligned = false)
    (h2 : c.behavior_timestamps = none)
    (h3 : c.videos = [v])
    (hw3 : fancyIndex c.ttl.timestamp (get_rising_frames_from_ttl c.ttl.ttlIn3)
      = Except.ok w3)
    (hw4 : fancyIndex c.ttl.timestamp (get_rising_frames_from_ttl c.ttl.ttlIn4)
      = Except.ok w4) :
    (containsAny v.file_path ["body", "top", "video1"] = true →
      temporally_align_data_interfaces c (some t) = Except.ok { c with
        aligned := true
        imaging_timestamps := c.imaging_timestamps.map (fun x => x + t)
        fiber_photometry_timestamps := some (c.imaging_timestamps.map (fun x => x + t))
        processed_imaging := c.processed_imaging.map
          (fun _ => some (c.imaging_timestamps.map (fun x => x + t)))
        videos := [{ v with aligned_timestamps := some (
          if (c.imaging_timestamps.map (fun x => x + t)).length < w3.length then
            w3.take (c.imaging_timestamps.map (fun x => x + t)).length
          else w3) }] }) ∧
    (containsAny v.file_path ["body", "top", "video1"] = false →
     containsAny v.file_path ["lick", "face", "side", "video2"] = true →
      temporally_align_data_interfaces c (some t) = Except.ok { c with
        aligned := true
        imaging_timestamps := c.imaging_timestamps.map (fun x => x + t)
        fiber_photometry_timestamps := some (c.imaging_timestamps.map (fun x => x + t))
        processed_imaging := c.processed_imaging.map
          (fun _ => some (c.imaging_timestamps.map (fun x => x + t)))
        videos := [{ v with aligned_timestamps := some (
          if (c.imaging_timestamps.map (fun x => x + t)).length < w4.length then
            w4.take (c.imaging_timestamps.map (fun x => x + t)).length
          else w4) }] }) ∧
    (containsAny v.file_path ["body", "top", "video1"] = false →
     containsAny v.file_path ["lick", "face", "side", "video2"] = false →
      temporally_align_data_interfaces c (some t)
        = Except.error (PyError.valueError "Could not determine TTL stream for video file")) := by
  refine ⟨?_, ?_, ?_⟩
  · intro hc1
    simp only [temporally_align_data_interfaces, h1, h2, h3, selectStartingTime, ok_bind,
      Bool.false_eq_true, if_false, exceptMap, alignVideo, hc1, if_true, hw3]
  · intro hc1 hc2
    simp only [temporally_align_data_interfaces, h1, h2, h3, selectStartingTime, ok_bind,
      Bool.false_eq_true, if_false, exceptMap, alignVideo, hc1, hc2, if_true, hw4]
  · intro hc1 hc2
    simp only [temporally_align_data_interfaces, h1, h2, h3, selectStartingTime, ok_bind,
      Bool.false_eq_true, if_false, exceptMap, alignVideo, hc1, hc2, error_bind]

/-- Witness for C8 on the body-camera fixture: channel ttlIn3's
rising-edge timestamps [1, 3] become the video's aligned timestamps, and
the two name tests evaluate as the vocabulary dictates. -/
theorem c8_witness :
    (containsAny wVideoBody.file_path ["body", "top", "video1"] = true →
      temporally_align_data_interfaces wConverterVideo (some 3)
        = Except.ok { wConverterVideo with
        aligned := true
        imaging_timestamps := wConverterVideo.imaging_timestamps.map (fun x => x + 3)
        fiber_photometry_timestamps :=
          some (wConverterVideo.imaging_timestamps.map (fun x => x + 3))
        processed_imaging := wConverterVideo.processed_imaging.map
          (fun _ => some (wConverterVideo.imaging_timestamps.map (fun x => x + 3)))
        videos := [{ wVideoBody with aligned_timestamps := some (
          if (wConverterVideo.imaging_timestamps.map (fun x => x + 3)).length
              < ([1, 3] : List ℚ).length then
            ([1, 3] : List ℚ).take
              (wConverterVideo.imaging_timestamps.map (fun x => x + 3)).length
          else [1, 3]) }] }) ∧
    (containsAny wVideoBody.file_path ["body", "top", "video1"] = false →
     containsAny wVideoBody.file_path ["lick", "face", "side", "video2"] = true →
      temporally_align_data_interfaces wConverterVideo (some 3)
        = Except.ok { wConverterVideo with
        aligned := true
        imaging_timestamps := wConverterVideo.imaging_timestamps.map (fun x => x + 3)
        fiber_photometry_timestamps :=
          some (wConverterVideo.imaging_timestamps.map (fun x => x + 3))
        processed_imaging := wConverterVideo.processed_imaging.map
          (fun _ => some (wConverterVideo.imaging_timestamps.map (fun x => x + 3)))
        videos := [{ wVideoBody with aligned_timestamps := some (
          if (wConverterVideo.imaging_timestamps.map (fun x => x + 3)).length
              < ([2] : List ℚ).length then
            ([2] : List ℚ).take
              (wConverterVideo.imaging_timestamps.map (fun x => x + 3)).length
          else [2]) }] }) ∧
    (containsAny wVideoBody.file_path ["body", "top", "video1"] = false →
     containsAny wVideoBody.file_path ["lick", "face", "side", "video2"] = false →
      temporally_align_data_interfaces wConverterVideo (some 3)
        = Except.error (PyError.valueError "Could not determine TTL stream for video file")) :=
  c8_video_ttl_channel_inference wConverterVideo wVideoBody 3 [1, 3] [2] rfl rfl rfl
    (by
      rw [show get_rising_frames_from_ttl wConverterVideo.ttl.ttlIn3 = [1, 3] by
        norm_num [get_rising_frames_from_ttl, wConverterVideo, wTTL, List.filter]]
      rfl)
    (by
      rw [show get_rising_frames_from_ttl wConverterVideo.ttl.ttlIn4 = [2] by
        norm_num [get_rising_frames_from_ttl, wConverterVideo, wTTL, List.filter]]
      rfl)

/-- C9: temporal alignment is idempotent — once a call has completed and
set the `aligned` flag, any further call returns the converter state
unchanged, whatever starting time it is given. -/
theorem c9_temporal_alignment_idempotent (c c2 : ConverterState) (a a2 : Option ℚ)
    (h : temporally_align_data_interfaces c a = Except.ok c2) :
    temporally_align_data_interfaces c2 a2 = Except.ok c2 := by
  have hflag : c2.aligned = true := by
    by_cases hc : c.aligned = true
    · unfold temporally_align_data_interfaces at h
      rw [if_pos hc] at h
      cases h
      exact hc
    · have hc2 : c.aligned = false := by simpa using hc
      simp only [temporally_align_data_interfaces, hc2, Bool.false_eq_true, if_false] at h
      cases hs : selectStartingTime c.behavior_timestamps a with
      | error e => rw [hs] at h; cases h
      | ok ast =>
        rw [hs] at h
        simp only [ok_bind] at h
        cases ast with
        | none => cases h
        | some t =>
          dsimp only [] at h
          cases hv : exceptMap
              (alignVideo c.ttl (List.map (fun x => x + t) c.imaging_timestamps)) c.videos with
          | error e => rw [hv] at h; cases h
          | ok vs =>
            rw [hv] at h
            simp only [ok_bind] at h
            cases h
            rfl
  unfold temporally_align_data_interfaces
  rw [if_pos hflag]

/-- Witness for C9: re-aligning the already-aligned fixture state (with a
different starting time) returns it unchanged. -/
theorem c9_witness :
    temporally_align_data_interfaces
      ⟨true, [15, 16], some [15, 16], some (some [15, 16]), some [5, 6], [], wTTL⟩ (some 3)
      = Except.ok ⟨true, [15, 16], some [15, 16], some (some [15, 16]), some [5, 6], [], wTTL⟩ :=
  c9_temporal_alignment_idempotent wConverter
    ⟨true, [15, 16], some [15, 16], some (some [15, 16]), some [5, 6], [], wTTL⟩ none (some 3)
    (by
      simp only [temporally_align_data_interfaces, wConverter, selectStartingTime,
        exceptMap, List.head?, ok_bind, Bool.false_eq_true, if_false]
      norm_num)

end HoweLab
